import Mathlib

/-!
Shallow embedding of the gimbal stabilizer state machine from
`src/hw/gimbal/firmware/gimbal/gimbal_stabilizer.cc`.

Modelling conventions:
* C++ `float` values (configuration periods, angles, PID commands) are
  modelled as `ℚ`; the clock's `ticks_per_second()` is a parameter `tps : ℚ`
  and `clock_.timestamp()` is a per-invocation parameter `now : ℕ`.
* `uint32_t` tick values are modelled as `ℕ`, with the wrap-around
  subtraction `a - b` of the source modelled by `usub` (difference mod 2^32).
* The external collaborators that are not part of this repository snapshot
  (`std::sin` from the C library, and `PID::Apply` from `pid.h`) are
  parameters of the machine, bundled in `Externals`.
* The hardware side effects (the GPIO enable line `motor_enable_`, the two
  BLDC PWM channels `motor1_`/`motor2_`) are modelled as explicit fields of
  an `Outputs` record, and the telemetry updater `data_updater_()` as an
  append-only `log` of published `Data` snapshots.
-/

namespace Gimbal

/-- State enum of `GimbalStabilizer::Impl` (`kNumStates` is the count
sentinel guarded by `assert(false)` and is not a real state). -/
inductive State where
  | kInitializing
  | kOperating
  | kFault
deriving DecidableEq, Repr

/-- Modelled from the spec: Euler angles record (header not under `src/`);
the spec lists pitch, yaw and roll components in degrees. -/
structure Euler where
  pitch : ℚ := 0
  yaw : ℚ := 0
  roll : ℚ := 0
deriving DecidableEq, Repr

/-- Modelled from the spec: 3-vector record (header not under `src/`). -/
structure Point3D where
  x : ℚ := 0
  y : ℚ := 0
  z : ℚ := 0
deriving DecidableEq, Repr

/-- Modelled from the spec: PID gain/limit parameters (`pid.h` is not under
`src/`; the spec only says "PID gain/limit parameters"). None of the
verified claims depend on the concrete fields. -/
structure PIDConfig where
  kp : ℚ := 0
  ki : ℚ := 0
  kd : ℚ := 0
  ilimit : ℚ := 0
deriving DecidableEq, Repr

/-- Modelled from the spec: PID internal state (`pid.h` is not under
`src/`; the spec says "integrator accumulators, previous error"). -/
structure PIDState where
  integral : ℚ := 0
  prev_error : ℚ := 0
deriving DecidableEq, Repr

/-- `ChannelConfig` from the anonymous namespace: a motor id and PID gains.
The member initializer is `uint8_t motor = -1`, i.e. 255. -/
structure ChannelConfig where
  motor : ℕ := 255
  pid : PIDConfig := {}
deriving DecidableEq, Repr

/-- `Config` from the anonymous namespace. The `Config()` constructor
overrides the channel defaults with `pitch.motor = 1; yaw.motor = 2`. -/
structure Config where
  initialization_period_s : ℚ := 1
  watchdog_period_s : ℚ := 1/10
  pitch : ChannelConfig := { motor := 1 }
  yaw : ChannelConfig := { motor := 2 }
deriving DecidableEq, Repr

/-- Modelled from the spec: the AHRS sample delivered by the sensor signal
(`ahrs_data.h` is not under `src/`); the spec lists
`{error, euler_deg, body_rate_dps, timestamp, rate_hz}`. -/
structure AhrsData where
  error : Bool := false
  euler_deg : Euler := {}
  body_rate_dps : Point3D := {}
  timestamp : ℕ := 0
  rate_hz : ℚ := 0
deriving DecidableEq, Repr

/-- `GimbalStabilizer::Impl::Data`: the telemetry-visible state record.
`state` carries no member initializer in the source; the machine starts in
`kInitializing` (the spec's initial state). -/
structure Data where
  state : State := State.kInitializing
  pitch : PIDState := {}
  yaw : PIDState := {}
  start_timestamp : ℕ := 0
  desired_deg : Euler := {}
  desired_body_rate_dps : Point3D := {}
  last_ahrs_update : ℕ := 0
  torque_on : Bool := false
deriving DecidableEq, Repr

/-- Hardware output lines: the GPIO enable pin and the two three-phase PWM
channels, each holding the last `Set` value written to it. -/
structure Outputs where
  motor_enable : Bool
  motor1 : ℕ × ℕ × ℕ
  motor2 : ℕ × ℕ × ℕ
deriving DecidableEq, Repr

/-- Whole observable machine state: the `Data` record, the hardware output
lines, and the telemetry log of published `Data` snapshots. -/
structure World where
  data : Data
  out : Outputs
  log : List Data
deriving DecidableEq, Repr

/-- External collaborators that are code outside this repository snapshot:
the C library `std::sin` and `PID::Apply` (measured position, desired
position, measured rate, desired rate, sample rate; returns the command and
the updated PID state). -/
structure Externals where
  sin : ℚ → ℚ
  pidApply : PIDConfig → PIDState → ℚ → ℚ → ℚ → ℚ → ℚ → ℚ × PIDState

/-- Wrap-around `uint32_t` subtraction `a - b`. -/
def usub (a b : ℕ) : ℕ := (((a : ℤ) - (b : ℤ)) % (2 ^ 32)).toNat

/-- Modelled from the spec: `mjmech::base::kPi` (header not under `src/`);
the value is the `float` nearest to π. -/
def kPi : ℚ := 13176795 / 4194304

/-- `static_cast<uint32_t>` of a nonnegative `float`: truncation. -/
def u32cast (q : ℚ) : ℕ := (⌊q⌋).toNat

/-- The `phase` lambda of `DoOperating`:
`(sin((command + phase) * 2 * kPi) + 1) * 32767`, cast to `uint32_t`,
clamped into `[0, 65535]` and returned as a `uint16_t`. -/
def phase (ext : Externals) (command ph : ℚ) : ℕ :=
  max 0 (min 65535 (u32cast ((ext.sin ((command + ph) * (2 * kPi)) + 1) * 32767)))

/-- All-off hardware outputs: enable low, both channels at `(0,0,0)`. -/
def zeroOutputs : Outputs :=
  { motor_enable := false, motor1 := (0, 0, 0), motor2 := (0, 0, 0) }

/-- Write a `Set(a,b,c)` triple to the motor channel with the given index
(1 selects `motor1_`, anything else `motor2_`; the index always is 1 or 2
by construction of `pitchMotor`/`yawMotor`). -/
def setMotor (o : Outputs) (i : ℕ) (v : ℕ × ℕ × ℕ) : Outputs :=
  if i = 1 then { o with motor1 := v } else { o with motor2 := v }

/-- `Impl::pitch_motor()`: channel lookup with fallback to `motor1_`. -/
def pitchMotor (cfg : Config) : ℕ :=
  if cfg.pitch.motor = 1 then 1 else if cfg.pitch.motor = 2 then 2 else 1

/-- `Impl::yaw_motor()`: channel lookup with fallback to `motor2_`. -/
def yawMotor (cfg : Config) : ℕ :=
  if cfg.yaw.motor = 1 then 1 else if cfg.yaw.motor = 2 then 2 else 2

/-- `Impl::DoInitializing`: force the enable line low; an error sample
resets the arming timer; the first sample starts it; once
`(now - start_timestamp) / ticks_per_second` exceeds
`initialization_period_s`, lock the setpoints and go to `kOperating`. -/
def DoInitializing (cfg : Config) (tps : ℚ) (now : ℕ) (sample : AhrsData)
    (w : World) : World :=
  let w := { w with out := { w.out with motor_enable := false } }
  if sample.error then
    { w with data := { w.data with start_timestamp := 0 } }
  else if w.data.start_timestamp = 0 then
    { w with data := { w.data with start_timestamp := now } }
  else if ((usub now w.data.start_timestamp : ℚ) / tps >
      cfg.initialization_period_s) then
    { w with data := { w.data with
        desired_deg := { w.data.desired_deg with
                         pitch := 0
                         yaw := sample.euler_deg.yaw }
        last_ahrs_update := now
        state := State.kOperating } }
  else w

/-- `Impl::DoFault`: enter `kFault`, drop torque, disable the enable line
and zero both PWM channels. -/
def DoFault (w : World) : World :=
  { w with
    data := { w.data with state := State.kFault, torque_on := false },
    out := { motor_enable := false, motor1 := (0, 0, 0), motor2 := (0, 0, 0) } }

/-- `Impl::DoOperating`: an error sample faults; otherwise record the
sample timestamp, drive the enable line from `torque_on`, run both PID
loops and write the three-phase commands to the configured channels. -/
def DoOperating (ext : Externals) (cfg : Config) (sample : AhrsData)
    (w : World) : World :=
  if sample.error then DoFault w
  else
    let pitchRes := ext.pidApply cfg.pitch.pid w.data.pitch
      sample.euler_deg.pitch w.data.desired_deg.pitch
      sample.body_rate_dps.x w.data.desired_body_rate_dps.x sample.rate_hz
    let yawRes := ext.pidApply cfg.yaw.pid w.data.yaw
      sample.euler_deg.yaw w.data.desired_deg.yaw
      sample.body_rate_dps.z w.data.desired_body_rate_dps.z sample.rate_hz
    let o1 := { w.out with motor_enable := w.data.torque_on }
    let o2 := setMotor o1 (pitchMotor cfg)
      (phase ext pitchRes.1 0, phase ext pitchRes.1 (1/3),
       phase ext pitchRes.1 (2/3))
    let o3 := setMotor o2 (yawMotor cfg)
      (phase ext yawRes.1 0, phase ext yawRes.1 (1/3),
       phase ext yawRes.1 (2/3))
    { w with
      data := { w.data with
                last_ahrs_update := sample.timestamp
                pitch := pitchRes.2
                yaw := yawRes.2 }
      out := o3 }

/-- The telemetry updater `data_updater_()`: appends the current `Data`
snapshot to the telemetry log. -/
def publish (w : World) : World := { w with log := w.log ++ [w.data] }

/-- `Impl::HandleAhrs`: dispatch on the current state, then publish the
`Data` snapshot to telemetry (`data_updater_()`), unconditionally and
exactly once, after the handler returns. -/
def HandleAhrs (ext : Externals) (cfg : Config) (tps : ℚ) (now : ℕ)
    (sample : AhrsData) (w : World) : World :=
  publish (match w.data.state with
    | State.kInitializing => DoInitializing cfg tps now sample w
    | State.kOperating => DoOperating ext cfg sample w
    | State.kFault => DoFault w)

/-- `Impl::PollMillisecond`: while `kOperating`, fault when
`(now - last_ahrs_update) / ticks_per_second` exceeds
`watchdog_period_s`; no action in the other states. -/
def PollMillisecond (cfg : Config) (tps : ℚ) (now : ℕ) (w : World) : World :=
  match w.data.state with
  | State.kOperating =>
    if ((usub now w.data.last_ahrs_update : ℚ) / tps >
        cfg.watchdog_period_s) then DoFault w else w
  | State.kInitializing => w
  | State.kFault => w

/-- Initial world: default-constructed `Data` (state `kInitializing`, zero
timestamps, torque off), de-energized hardware and an empty telemetry log. -/
def initWorld : World :=
  { data := {}, out := zeroOutputs, log := [] }

/-- Worlds reachable from `initWorld` by the two entry points, at arbitrary
clock readings and with arbitrary incoming samples. -/
inductive Reachable (ext : Externals) (cfg : Config) (tps : ℚ) : World → Prop
  | init : Reachable ext cfg tps initWorld
  | ahrs (w : World) (now : ℕ) (sample : AhrsData) :
      Reachable ext cfg tps w →
      Reachable ext cfg tps (HandleAhrs ext cfg tps now sample w)
  | poll (w : World) (now : ℕ) :
      Reachable ext cfg tps w →
      Reachable ext cfg tps (PollMillisecond cfg tps now w)

/-- Fold a sequence of `(now, sample)` deliveries through `HandleAhrs`. -/
def runAhrsSeq (ext : Externals) (cfg : Config) (tps : ℚ) (w : World)
    (l : List (ℕ × AhrsData)) : World :=
  l.foldl (fun w p => HandleAhrs ext cfg tps p.1 p.2 w) w

/-- Fold a sequence of poll instants through `PollMillisecond`. -/
def runPollSeq (cfg : Config) (tps : ℚ) (w : World) (l : List ℕ) : World :=
  l.foldl (fun w now => PollMillisecond cfg tps now w) w

/-- Trivial instantiation of the external collaborators, used to evaluate
the machine at concrete inputs. -/
def extZero : Externals :=
  { sin := fun _ => 0, pidApply := fun _ s _ _ _ _ _ => (0, s) }

/-! ### Basic lemmas about the embedding -/

@[simp] lemma publish_data (w : World) : (publish w).data = w.data := rfl

@[simp] lemma publish_out (w : World) : (publish w).out = w.out := rfl

@[simp] lemma publish_log (w : World) : (publish w).log = w.log ++ [w.data] := rfl

@[simp] lemma setMotor_enable (o : Outputs) (i : ℕ) (v : ℕ × ℕ × ℕ) :
    (setMotor o i v).motor_enable = o.motor_enable := by
  unfold setMotor; split <;> rfl

lemma usub_add (a d : ℕ) (h : d < 2 ^ 32) : usub (a + d) a = d := by
  unfold usub
  have h1 : ((a + d : ℕ) : ℤ) - (a : ℤ) = (d : ℤ) := by push_cast; ring
  rw [h1, Int.emod_eq_of_lt (by positivity) (by exact_mod_cast h)]
  exact Int.toNat_natCast d

/-- Safety invariant maintained by both entry points: torque is never on,
the enable line is never high, and outside `kOperating` the whole output
record is de-energized. -/
def SafeInv (w : World) : Prop :=
  w.data.torque_on = false ∧ w.out.motor_enable = false ∧
    (w.data.state ≠ State.kOperating → w.out = zeroOutputs)

lemma doInit_out (cfg : Config) (tps : ℚ) (now : ℕ) (sample : AhrsData)
    (w : World) : (DoInitializing cfg tps now sample w).out =
      { w.out with motor_enable := false } := by
  simp only [DoInitializing]
  split_ifs <;> rfl

lemma doInit_torque (cfg : Config) (tps : ℚ) (now : ℕ) (sample : AhrsData)
    (w : World) :
    (DoInitializing cfg tps now sample w).data.torque_on = w.data.torque_on := by
  simp only [DoInitializing]
  split_ifs <;> rfl

lemma doInit_last_log (cfg : Config) (tps : ℚ) (now : ℕ) (sample : AhrsData)
    (w : World) : (DoInitializing cfg tps now sample w).log = w.log := by
  simp only [DoInitializing]
  split_ifs <;> rfl

lemma doInit_error (cfg : Config) (tps : ℚ) (now : ℕ) (sample : AhrsData)
    (w : World) (he : sample.error = true) :
    DoInitializing cfg tps now sample w =
      { w with
        data := { w.data with start_timestamp := 0 }
        out := { w.out with motor_enable := false } } := by
  simp [DoInitializing, he]

lemma doOp_error (ext : Externals) (cfg : Config) (sample : AhrsData)
    (w : World) (he : sample.error = true) :
    DoOperating ext cfg sample w = DoFault w := by
  simp [DoOperating, he]

lemma doOp_state (ext : Externals) (cfg : Config) (sample : AhrsData)
    (w : World) (he : sample.error = false) :
    (DoOperating ext cfg sample w).data.state = w.data.state := by
  simp [DoOperating, he]

lemma doOp_torque (ext : Externals) (cfg : Config) (sample : AhrsData)
    (w : World) (he : sample.error = false) :
    (DoOperating ext cfg sample w).data.torque_on = w.data.torque_on := by
  simp [DoOperating, he]

lemma doOp_enable (ext : Externals) (cfg : Config) (sample : AhrsData)
    (w : World) (he : sample.error = false) :
    (DoOperating ext cfg sample w).out.motor_enable = w.data.torque_on := by
  simp [DoOperating, he]

lemma doOp_last (ext : Externals) (cfg : Config) (sample : AhrsData)
    (w : World) (he : sample.error = false) :
    (DoOperating ext cfg sample w).data.last_ahrs_update = sample.timestamp := by
  simp [DoOperating, he]

lemma doOp_log (ext : Externals) (cfg : Config) (sample : AhrsData)
    (w : World) : (DoOperating ext cfg sample w).log = w.log := by
  simp only [DoOperating]
  split_ifs with he
  · rfl
  · simp [setMotor]

lemma safeInv_publish (w : World) : SafeInv (publish w) ↔ SafeInv w :=
  Iff.rfl

lemma doInit_started (cfg : Config) (tps : ℚ) (now : ℕ) (sample : AhrsData)
    (w : World) (he : sample.error = false)
    (h0 : w.data.start_timestamp = 0) :
    DoInitializing cfg tps now sample w =
      { w with
        data := { w.data with start_timestamp := now }
        out := { w.out with motor_enable := false } } := by
  simp [DoInitializing, he, h0]

lemma doInit_arm (cfg : Config) (tps : ℚ) (now : ℕ) (sample : AhrsData)
    (w : World) (he : sample.error = false)
    (h0 : w.data.start_timestamp ≠ 0)
    (hg : (usub now w.data.start_timestamp : ℚ) / tps >
      cfg.initialization_period_s) :
    DoInitializing cfg tps now sample w =
      { w with
        data := { w.data with
                  desired_deg := { w.data.desired_deg with
                                   pitch := 0
                                   yaw := sample.euler_deg.yaw }
                  last_ahrs_update := now
                  state := State.kOperating }
        out := { w.out with motor_enable := false } } := by
  simp [DoInitializing, he, h0, hg]

lemma doInit_wait (cfg : Config) (tps : ℚ) (now : ℕ) (sample : AhrsData)
    (w : World) (he : sample.error = false)
    (h0 : w.data.start_timestamp ≠ 0)
    (hg : ¬ ((usub now w.data.start_timestamp : ℚ) / tps >
      cfg.initialization_period_s)) :
    DoInitializing cfg tps now sample w =
      { w with out := { w.out with motor_enable := false } } := by
  simp [DoInitializing, he, h0, hg]

lemma safeInv_initWorld : SafeInv initWorld :=
  ⟨rfl, rfl, fun _ => rfl⟩

lemma safeInv_doFault (w : World) : SafeInv (DoFault w) :=
  ⟨rfl, rfl, fun _ => rfl⟩

lemma safeInv_handleAhrs (ext : Externals) (cfg : Config) (tps : ℚ) (now : ℕ)
    (sample : AhrsData) (w : World) (h : SafeInv w) :
    SafeInv (HandleAhrs ext cfg tps now sample w) := by
  obtain ⟨ht, he, hz⟩ := h
  unfold HandleAhrs
  show SafeInv (publish _)
  split
  case h_1 hs =>
    have hout : w.out = zeroOutputs := hz (by rw [hs]; decide)
    refine ⟨?_, ?_, fun _ => ?_⟩
    · show (DoInitializing cfg tps now sample w).data.torque_on = false
      rw [doInit_torque]; exact ht
    · show (DoInitializing cfg tps now sample w).out.motor_enable = false
      rw [doInit_out]
    · show (DoInitializing cfg tps now sample w).out = zeroOutputs
      rw [doInit_out, hout]; rfl
  case h_2 hs =>
    cases herr : sample.error with
    | true =>
      rw [safeInv_publish, doOp_error ext cfg sample w herr]
      exact safeInv_doFault w
    | false =>
      refine ⟨?_, ?_, fun hc => ?_⟩
      · show (DoOperating ext cfg sample w).data.torque_on = false
        rw [doOp_torque ext cfg sample w herr]; exact ht
      · show (DoOperating ext cfg sample w).out.motor_enable = false
        rw [doOp_enable ext cfg sample w herr]; exact ht
      · exfalso
        apply hc
        show (DoOperating ext cfg sample w).data.state = State.kOperating
        rw [doOp_state ext cfg sample w herr]; exact hs
  case h_3 hs =>
    rw [safeInv_publish]
    exact safeInv_doFault w

lemma safeInv_poll (cfg : Config) (tps : ℚ) (now : ℕ) (w : World)
    (h : SafeInv w) : SafeInv (PollMillisecond cfg tps now w) := by
  unfold PollMillisecond
  split
  · split
    · exact safeInv_doFault w
    · exact h
  · exact h
  · exact h

lemma safeInv_reachable (ext : Externals) (cfg : Config) (tps : ℚ)
    (w : World) (h : Reachable ext cfg tps w) : SafeInv w := by
  induction h with
  | init => exact safeInv_initWorld
  | ahrs w now sample _ ih => exact safeInv_handleAhrs ext cfg tps now sample w ih
  | poll w now _ ih => exact safeInv_poll cfg tps now w ih

lemma poll_nonoperating (cfg : Config) (tps : ℚ) (now : ℕ) (w : World)
    (hs : w.data.state ≠ State.kOperating) :
    PollMillisecond cfg tps now w = w := by
  unfold PollMillisecond
  split
  case h_1 h1 => exact absurd h1 hs
  case h_2 h2 => rfl
  case h_3 h3 => rfl

/-- Concrete world sitting in `kOperating`, used to evaluate theorems. -/
def operatingWorld : World :=
  { data := { state := State.kOperating }, out := zeroOutputs, log := [] }

/-- Concrete world sitting in `kFault`, used to evaluate theorems. -/
def faultWorld : World :=
  { data := { state := State.kFault }, out := zeroOutputs, log := [] }

/-! ### Claims -/

/-- C1: in every reachable world whose state is not `kOperating`, the
actuator outputs are zero and the enable line is false, and they stay so
across any AHRS-sample invocation and any watchdog poll from that world. -/
theorem claim1_nonoperating_outputs_zero (ext : Externals) (cfg : Config)
    (tps : ℚ) (now : ℕ) (sample : AhrsData) (w : World)
    (hr : Reachable ext cfg tps w) (hs : w.data.state ≠ State.kOperating) :
    w.out = zeroOutputs ∧
    (HandleAhrs ext cfg tps now sample w).out = zeroOutputs ∧
    (PollMillisecond cfg tps now w).out = zeroOutputs := by
  have inv := safeInv_reachable ext cfg tps w hr
  have hout := inv.2.2 hs
  refine ⟨hout, ?_, ?_⟩
  · unfold HandleAhrs
    rw [publish_out]
    split
    case h_1 h1 => rw [doInit_out, hout]; rfl
    case h_2 h2 => exact absurd h2 hs
    case h_3 h3 => rfl
  · rw [poll_nonoperating cfg tps now w hs]
    exact hout

/-- Witness for C1 at the initial world. -/
theorem claim1_witness :
    initWorld.out = zeroOutputs ∧
    (HandleAhrs extZero {} 1 0 {} initWorld).out = zeroOutputs ∧
    (PollMillisecond {} 1 0 initWorld).out = zeroOutputs :=
  claim1_nonoperating_outputs_zero extZero {} 1 0 {} initWorld
    Reachable.init (by decide)

/-- C2: an AHRS sample with the error flag, processed while `kOperating`,
drives the machine to `kFault` with torque off, the enable line low and
both motor channels written to `(0,0,0)`. -/
theorem claim2_operating_error_faults (ext : Externals) (cfg : Config)
    (tps : ℚ) (now : ℕ) (sample : AhrsData) (w : World)
    (hs : w.data.state = State.kOperating) (he : sample.error = true) :
    (HandleAhrs ext cfg tps now sample w).data.state = State.kFault ∧
    (HandleAhrs ext cfg tps now sample w).data.torque_on = false ∧
    (HandleAhrs ext cfg tps now sample w).out = zeroOutputs := by
  unfold HandleAhrs
  split
  case h_1 h1 => rw [h1] at hs; exact absurd hs (by decide)
  case h_2 h2 => rw [doOp_error ext cfg sample w he]; exact ⟨rfl, rfl, rfl⟩
  case h_3 h3 => rw [h3] at hs; exact absurd hs (by decide)

/-- Witness for C2 at a concrete operating world and error sample. -/
theorem claim2_witness :
    (HandleAhrs extZero {} 1 0 { error := true } operatingWorld).data.state =
      State.kFault ∧
    (HandleAhrs extZero {} 1 0 { error := true } operatingWorld).data.torque_on =
      false ∧
    (HandleAhrs extZero {} 1 0 { error := true } operatingWorld).out =
      zeroOutputs :=
  claim2_operating_error_faults extZero {} 1 0 { error := true }
    operatingWorld rfl rfl

/-- C6: any number of watchdog polls from a world in `kFault` or
`kInitializing` is a no-op on the entire world (state, every `Data` field,
the outputs and the telemetry log), for every poll-time clock value. -/
theorem claim6_watchdog_noop (cfg : Config) (tps : ℚ) (w : World)
    (l : List ℕ)
    (hs : w.data.state = State.kFault ∨ w.data.state = State.kInitializing) :
    runPollSeq cfg tps w l = w := by
  have hne : w.data.state ≠ State.kOperating := by
    rcases hs with h | h <;> rw [h] <;> decide
  induction l with
  | nil => rfl
  | cons n t ih =>
    show runPollSeq cfg tps (PollMillisecond cfg tps n w) t = w
    rw [poll_nonoperating cfg tps n w hne]
    exact ih

/-- Witness for C6 at a concrete faulted world and three poll instants. -/
theorem claim6_witness : runPollSeq {} 1 faultWorld [1, 2, 3] = faultWorld :=
  claim6_watchdog_noop {} 1 faultWorld [1, 2, 3] (Or.inl rfl)

/-- C7: the phase-mapping lambda is a pure function and, for every command
and phase offset (and any sine implementation), its output lies in the
inclusive range `[0, 65535]`. -/
theorem claim7_phase_bounds (ext : Externals) (command off : ℚ) :
    0 ≤ phase ext command off ∧ phase ext command off ≤ 65535 := by
  refine ⟨Nat.zero_le _, ?_⟩
  unfold phase
  exact max_le (Nat.zero_le _) (min_le_left _ _)

/-- C9: every AHRS-sample invocation, in every state and on every branch,
appends exactly one snapshot to the telemetry log, namely the post-handler
`Data`; the watchdog poll never publishes. -/
theorem claim9_publish_exactly_once (ext : Externals) (cfg : Config)
    (tps : ℚ) (now n : ℕ) (sample : AhrsData) (w : World) :
    (HandleAhrs ext cfg tps now sample w).log =
      w.log ++ [(HandleAhrs ext cfg tps now sample w).data] ∧
    (PollMillisecond cfg tps n w).log = w.log := by
  constructor
  · unfold HandleAhrs
    rw [publish_log, publish_data]
    congr 1
    split
    case h_1 h1 => rw [doInit_last_log]
    case h_2 h2 => rw [doOp_log]
    case h_3 h3 => rfl
  · unfold PollMillisecond
    split
    · split_ifs <;> rfl
    · rfl
    · rfl

/-- C10: no reachable world has `torque_on = true` — it starts false and
the only assignment in the stabilizer writes false — and hence the enable
line, which `DoOperating` drives from `torque_on`, is low in every
reachable world. -/
theorem claim10_torque_never_on (ext : Externals) (cfg : Config) (tps : ℚ)
    (w : World) (hr : Reachable ext cfg tps w) :
    w.data.torque_on = false ∧ w.out.motor_enable = false :=
  ⟨(safeInv_reachable ext cfg tps w hr).1,
   (safeInv_reachable ext cfg tps w hr).2.1⟩

/-- Witness for C10 at the initial world. -/
theorem claim10_witness :
    initWorld.data.torque_on = false ∧ initWorld.out.motor_enable = false :=
  claim10_torque_never_on extZero {} 1 initWorld Reachable.init

/-- C3: with `last_ahrs_update = T`, `watchdog_period_s = W` and `Wtps`
the tick count `W * tps`, a poll at tick `T + Wtps + 1` faults (zeroing
the outputs), and a poll at tick `T + Wtps - 1` leaves the entire world
unchanged. -/
theorem claim3_watchdog_threshold (cfg : Config) (tps W : ℚ) (T Wtps : ℕ)
    (w : World) (hs : w.data.state = State.kOperating)
    (hl : w.data.last_ahrs_update = T) (hW : cfg.watchdog_period_s = W)
    (htps : 0 < tps) (hWt : (Wtps : ℚ) = W * tps) (h1 : 1 ≤ Wtps)
    (h2 : Wtps + 1 < 2 ^ 32) :
    (PollMillisecond cfg tps (T + Wtps + 1) w).data.state = State.kFault ∧
    (PollMillisecond cfg tps (T + Wtps + 1) w).out = zeroOutputs ∧
    PollMillisecond cfg tps (T + Wtps - 1) w = w := by
  have hu1 : usub (T + Wtps + 1) T = Wtps + 1 := by
    rw [show T + Wtps + 1 = T + (Wtps + 1) from by omega]
    exact usub_add T (Wtps + 1) h2
  have hu2 : usub (T + Wtps - 1) T = Wtps - 1 := by
    rw [show T + Wtps - 1 = T + (Wtps - 1) from by omega]
    exact usub_add T (Wtps - 1) (by omega)
  have hguard1 : (usub (T + Wtps + 1) T : ℚ) / tps > cfg.watchdog_period_s := by
    rw [hu1, hW, gt_iff_lt, lt_div_iff₀ htps, ← hWt]
    push_cast
    linarith
  have hguard2 :
      ¬ ((usub (T + Wtps - 1) T : ℚ) / tps > cfg.watchdog_period_s) := by
    rw [hu2, hW, gt_iff_lt, not_lt, div_le_iff₀ htps, ← hWt, Nat.cast_sub h1]
    linarith
  have hfault : PollMillisecond cfg tps (T + Wtps + 1) w = DoFault w := by
    unfold PollMillisecond
    simp only [hs, hl]
    rw [if_pos hguard1]
  have hstay : PollMillisecond cfg tps (T + Wtps - 1) w = w := by
    unfold PollMillisecond
    simp only [hs, hl]
    rw [if_neg hguard2]
  exact ⟨by rw [hfault]; rfl, by rw [hfault]; rfl, hstay⟩

/-- Witness for C3: watchdog period 1/10 s at 1000 ticks per second, last
sample at tick 7: a poll at tick 108 faults, a poll at tick 106 is a
no-op. -/
theorem claim3_witness :
    (PollMillisecond {} 1000 (7 + 100 + 1)
      { data := { state := State.kOperating, last_ahrs_update := 7 }
        out := zeroOutputs
        log := [] }).data.state = State.kFault ∧
    (PollMillisecond {} 1000 (7 + 100 + 1)
      { data := { state := State.kOperating, last_ahrs_update := 7 }
        out := zeroOutputs
        log := [] }).out = zeroOutputs ∧
    PollMillisecond {} 1000 (7 + 100 - 1)
      { data := { state := State.kOperating, last_ahrs_update := 7 }
        out := zeroOutputs
        log := [] } =
      { data := { state := State.kOperating, last_ahrs_update := 7 }
        out := zeroOutputs
        log := [] } :=
  claim3_watchdog_threshold {} 1000 (1/10) 7 100
    { data := { state := State.kOperating, last_ahrs_update := 7 }
      out := zeroOutputs
      log := [] }
    rfl rfl rfl (by norm_num) (by norm_num) (by norm_num) (by norm_num)

/-- Concrete world in `kInitializing` with a started arming timer
(`start_timestamp = 1`), used to evaluate theorems. -/
def initArmedWorld : World :=
  { data := { state := State.kInitializing, start_timestamp := 1 }
    out := zeroOutputs
    log := [] }

/-- C4: while `kInitializing` with a nonzero `start_timestamp`, an
error-free sample whose elapsed time `(now - start_timestamp) / tps`
exceeds `initialization_period_s` transitions the machine to `kOperating`
(after which the Initializing handler can no longer run), setting
`desired_deg.pitch := 0`, `desired_deg.yaw` to the sample's yaw and
`last_ahrs_update` to the current clock tick. -/
theorem claim4_initializing_arms (ext : Externals) (cfg : Config) (tps : ℚ)
    (now : ℕ) (sample : AhrsData) (w : World) (S : ℕ)
    (hs : w.data.state = State.kInitializing)
    (hst : w.data.start_timestamp = S) (hS : S ≠ 0)
    (he : sample.error = false)
    (hel : (usub now S : ℚ) / tps > cfg.initialization_period_s) :
    (HandleAhrs ext cfg tps now sample w).data.state = State.kOperating ∧
    (HandleAhrs ext cfg tps now sample w).data.desired_deg.pitch = 0 ∧
    (HandleAhrs ext cfg tps now sample w).data.desired_deg.yaw =
      sample.euler_deg.yaw ∧
    (HandleAhrs ext cfg tps now sample w).data.last_ahrs_update = now := by
  have h0 : w.data.start_timestamp ≠ 0 := by rw [hst]; exact hS
  have hg : (usub now w.data.start_timestamp : ℚ) / tps >
      cfg.initialization_period_s := by rw [hst]; exact hel
  unfold HandleAhrs
  split
  case h_1 h1 =>
    rw [doInit_arm cfg tps now sample w he h0 hg]
    exact ⟨rfl, rfl, rfl, rfl⟩
  case h_2 h2 => rw [h2] at hs; exact absurd hs (by decide)
  case h_3 h3 => rw [h3] at hs; exact absurd hs (by decide)

/-- Witness for C4: timer started at tick 1, error-free sample at tick
5000 with yaw 45 at 1000 ticks per second and a 1 s arming period. -/
theorem claim4_witness :
    (HandleAhrs extZero {} 1000 5000 { euler_deg := { yaw := 45 } }
      initArmedWorld).data.state = State.kOperating ∧
    (HandleAhrs extZero {} 1000 5000 { euler_deg := { yaw := 45 } }
      initArmedWorld).data.desired_deg.pitch = 0 ∧
    (HandleAhrs extZero {} 1000 5000 { euler_deg := { yaw := 45 } }
      initArmedWorld).data.desired_deg.yaw =
      ({ euler_deg := { yaw := 45 } } : AhrsData).euler_deg.yaw ∧
    (HandleAhrs extZero {} 1000 5000 { euler_deg := { yaw := 45 } }
      initArmedWorld).data.last_ahrs_update = 5000 :=
  claim4_initializing_arms extZero {} 1000 5000 { euler_deg := { yaw := 45 } }
    initArmedWorld 1 rfl rfl (by norm_num) rfl
    (by rw [show usub 5000 1 = 4999 from by decide]
        show (4999 : ℚ) / 1000 > 1
        norm_num)

lemma handle_error_init (ext : Externals) (cfg : Config) (tps : ℚ)
    (now : ℕ) (sample : AhrsData) (w : World)
    (hs : w.data.state = State.kInitializing) (he : sample.error = true) :
    (HandleAhrs ext cfg tps now sample w).data.state = State.kInitializing ∧
    (HandleAhrs ext cfg tps now sample w).data.start_timestamp = 0 := by
  unfold HandleAhrs
  split
  case h_1 h1 =>
    rw [doInit_error cfg tps now sample w he]
    exact ⟨hs, rfl⟩
  case h_2 h2 => rw [h2] at hs; exact absurd hs (by decide)
  case h_3 h3 => rw [h3] at hs; exact absurd hs (by decide)

lemma runAhrsSeq_error_keeps (ext : Externals) (cfg : Config) (tps : ℚ)
    (l : List (ℕ × AhrsData)) :
    ∀ w : World, w.data.state = State.kInitializing →
      w.data.start_timestamp = 0 →
      (∀ p ∈ l, (p : ℕ × AhrsData).2.error = true) →
      (runAhrsSeq ext cfg tps w l).data.state = State.kInitializing ∧
      (runAhrsSeq ext cfg tps w l).data.start_timestamp = 0 := by
  induction l with
  | nil => exact fun w h0 h1 _ => ⟨h0, h1⟩
  | cons p t ih =>
    intro w h0 _ herr
    have hstep := handle_error_init ext cfg tps p.1 p.2 w h0
      (herr p (List.mem_cons_self p t))
    exact ih _ hstep.1 hstep.2 (fun q hq => herr q (List.mem_cons_of_mem p hq))

/-- C5: any nonempty sequence of error-flagged samples delivered while
`kInitializing` leaves the machine in `kInitializing` with
`start_timestamp = 0` (each such sample resets it, so it stays 0 across
the whole sequence and a later valid sample restarts the timer). -/
theorem claim5_error_resets (ext : Externals) (cfg : Config) (tps : ℚ)
    (w : World) (l : List (ℕ × AhrsData))
    (hs : w.data.state = State.kInitializing) (hl : l ≠ [])
    (herr : ∀ p ∈ l, (p : ℕ × AhrsData).2.error = true) :
    (runAhrsSeq ext cfg tps w l).data.state = State.kInitializing ∧
    (runAhrsSeq ext cfg tps w l).data.start_timestamp = 0 := by
  cases l with
  | nil => exact absurd rfl hl
  | cons p t =>
    have hstep := handle_error_init ext cfg tps p.1 p.2 w hs
      (herr p (List.mem_cons_self p t))
    exact runAhrsSeq_error_keeps ext cfg tps t _ hstep.1 hstep.2
      (fun q hq => herr q (List.mem_cons_of_mem p hq))

/-- Witness for C5 on a two-sample error sequence from a world whose
arming timer had already started. -/
theorem claim5_witness :
    (runAhrsSeq extZero {} 1000 initArmedWorld
      [(3, { error := true }), (9, { error := true })]).data.state =
      State.kInitializing ∧
    (runAhrsSeq extZero {} 1000 initArmedWorld
      [(3, { error := true }), (9, { error := true })]).data.start_timestamp =
      0 :=
  claim5_error_resets extZero {} 1000 initArmedWorld
    [(3, { error := true }), (9, { error := true })]
    rfl (by simp) (by decide)

/-- C8 counterexample: in `initArmedWorld` the state is `kInitializing`
(not `kOperating`), yet the error-free arming sample at tick 5000 changes
`last_ahrs_update` (from 0 to 5000) — so `last_ahrs_update` is not
advanced only while `kOperating`. -/
theorem claim8_counterexample :
    initArmedWorld.data.state = State.kInitializing ∧
    initArmedWorld.data.state ≠ State.kOperating ∧
    (HandleAhrs extZero {} 1000 5000 {} initArmedWorld).data.last_ahrs_update ≠
      initArmedWorld.data.last_ahrs_update := by
  refine ⟨rfl, by decide, ?_⟩
  have h0 : initArmedWorld.data.start_timestamp ≠ 0 := by decide
  have hg : (usub 5000 initArmedWorld.data.start_timestamp : ℚ) / 1000 >
      ({} : Config).initialization_period_s := by
    rw [show usub 5000 initArmedWorld.data.start_timestamp = 4999 from by decide]
    show (4999 : ℚ) / 1000 > 1
    norm_num
  show (publish (DoInitializing {} 1000 5000 {} initArmedWorld)).data.last_ahrs_update ≠
    initArmedWorld.data.last_ahrs_update
  rw [publish_data, doInit_arm {} 1000 5000 {} initArmedWorld rfl h0 hg]
  decide

/-- C8 amended: `last_ahrs_update` changes only under an accepted
(error-free) sample, and then only while `kOperating`, or while
`kInitializing` at the moment of the transition to `kOperating`; the
watchdog poll never changes it. -/
theorem claim8_amended (ext : Externals) (cfg : Config) (tps : ℚ)
    (now n : ℕ) (sample : AhrsData) (w : World)
    (h : (HandleAhrs ext cfg tps now sample w).data.last_ahrs_update ≠
      w.data.last_ahrs_update) :
    (sample.error = false ∧
      (w.data.state = State.kOperating ∨
        (w.data.state = State.kInitializing ∧
          (HandleAhrs ext cfg tps now sample w).data.state =
            State.kOperating))) ∧
    (PollMillisecond cfg tps n w).data.last_ahrs_update =
      w.data.last_ahrs_update := by
  constructor
  · revert h
    unfold HandleAhrs
    split
    case h_1 h1 =>
      cases herr : sample.error with
      | true =>
        intro h
        exfalso; apply h
        rw [doInit_error cfg tps now sample w herr]
        rfl
      | false =>
        by_cases h0 : w.data.start_timestamp = 0
        · intro h
          exfalso; apply h
          rw [doInit_started cfg tps now sample w herr h0]
          rfl
        · by_cases hg : (usub now w.data.start_timestamp : ℚ) / tps >
            cfg.initialization_period_s
          · intro _
            refine ⟨rfl, Or.inr ⟨h1, ?_⟩⟩
            rw [doInit_arm cfg tps now sample w herr h0 hg]
            rfl
          · intro h
            exfalso; apply h
            rw [doInit_wait cfg tps now sample w herr h0 hg]
            rfl
    case h_2 h2 =>
      cases herr : sample.error with
      | true =>
        intro h
        exfalso; apply h
        rw [doOp_error ext cfg sample w herr]
        rfl
      | false =>
        intro _
        exact ⟨rfl, Or.inl h2⟩
    case h_3 h3 =>
      intro h
      exact absurd rfl h
  · unfold PollMillisecond
    split
    · split_ifs
      · rfl
      · rfl
    · rfl
    · rfl

/-- Witness for C8 (amended) at an operating world whose recorded sample
tick 0 is replaced by the sample's timestamp 42. -/
theorem claim8_amended_witness :
    ((({ timestamp := 42 } : AhrsData).error = false ∧
      (operatingWorld.data.state = State.kOperating ∨
        (operatingWorld.data.state = State.kInitializing ∧
          (HandleAhrs extZero {} 1 3 { timestamp := 42 }
            operatingWorld).data.state = State.kOperating))) ∧
    (PollMillisecond {} 1 4 operatingWorld).data.last_ahrs_update =
      operatingWorld.data.last_ahrs_update) :=
  claim8_amended extZero {} 1 3 4 { timestamp := 42 } operatingWorld
    (by decide)

end Gimbal
